import Mathlib

/-!
Shallow embedding of `main_pandas.py`: the orchestration script that loads a
shared OHLCV dataset pool, keeps a static registry of trading strategies, and
dispatches each requested strategy name to either a live-trading path or a
backtest path.

Python values are modelled as follows: `datetime.datetime(y, m, d)` becomes a
`Nat` key `y * 10000 + m * 100 + d` (order-isomorphic to chronology on valid
dates), `time()` and `perf_counter()` readings become rational-valued streams
supplied by an environment, dictionaries with optional keys become `Option`
fields (outer `Option` = key presence), Python exceptions become an error
component returned next to the state reached so far (mutations performed
before the raise persist, as in Python), and the observable external calls
(strategy construction, `trader.add_strategy`, `Strategy.backtest`,
`indicators.calculate_returns`, `trader.run_all`, printing) become an event
trace carried in the state.
-/

namespace MainPandas

/-- `datetime.datetime(y, m, d)` modelled as a sortable `Nat` key. -/
def datetime (y m d : Nat) : Nat := y * 10000 + m * 100 + d

/-- Global parameter `budget = 40000` of `main_pandas.py`. -/
def budget : Int := 40000

/-- Global parameter `backtesting_start = datetime.datetime(2019, 2, 28)`. -/
def backtesting_start : Nat := datetime 2019 2 28

/-- Global parameter `backtesting_end = datetime.datetime(2019, 12, 1)`. -/
def backtesting_end : Nat := datetime 2019 12 1

/-- `benchmark_asset = "SPY"`, set at the top of `__main__`. -/
def benchmark_asset : String := "SPY"

/-- The ticker list the startup loop iterates over. -/
def tickers : List String := ["SPY", "DJP", "TLT", "GLD", "IEF"]

/-- One `lumibot.entities.Data` object of the shared `pandas_data` pool, as the
dispatcher sees it: an owning-strategy label (mutable in Python, rewritten in
the backtest branch) and the asset symbol it is keyed by. -/
structure DataEntry where
  strategy : String
  symbol : String
deriving DecidableEq

/-- The two backtesting data-source classes imported by the script. -/
inductive Datasource
  | PandasDataBacktesting
  | YahooDataBacktesting
deriving DecidableEq

/-- The single shared `pandas_data` dict built at startup.  Every registry
entry that binds a dataset binds this one object, so the label rewrite in one
dispatch is visible to the next. -/
inductive PoolRef
  | sharedPool
deriving DecidableEq

/-- One value of the `mapping` registry: the fields of the per-strategy
configuration dict.  `pandasDataField` models the `"pandas_data"` key:
`none` = key absent, `some none` = key present with value `None`,
`some (some .sharedPool)` = key present, bound to the shared pool.
`backtestingCacheField` likewise models the optional `"backtesting_cache"`
key.  `kwargs` records the keyword names of the `"kwargs"` dict and
`config` the `"config"` value (always `None` in the source). -/
structure StrategyParams where
  className : String
  backtesting_datasource : Option Datasource
  kwargs : List String
  config : Option Unit
  pandasDataField : Option (Option PoolRef)
  backtestingCacheField : Option Bool
deriving DecidableEq

/-- The static `mapping` dict of `main_pandas.py`, keyed by strategy name;
`mapping.get(name)` returns `None` for unknown names. -/
def mapping (name : String) : Option StrategyParams :=
  match name with
  | "momentum_pandas" => some
      { className := "Momentum"
        backtesting_datasource := some Datasource.PandasDataBacktesting
        kwargs := ["symbols"]
        config := none
        pandasDataField := some (some PoolRef.sharedPool)
        backtestingCacheField := none }
  | "diversification" => some
      { className := "Diversification"
        backtesting_datasource := some Datasource.PandasDataBacktesting
        kwargs := []
        config := none
        pandasDataField := some (some PoolRef.sharedPool)
        backtestingCacheField := none }
  | "debt_trading" => some
      { className := "DebtTrading"
        backtesting_datasource := some Datasource.YahooDataBacktesting
        kwargs := []
        config := none
        pandasDataField := some none
        backtestingCacheField := none }
  | "intraday_momentum" => some
      { className := "IntradayMomentum"
        backtesting_datasource := none
        kwargs := []
        config := none
        pandasDataField := none
        backtestingCacheField := none }
  | "fast_trading" => some
      { className := "FastTrading"
        backtesting_datasource := none
        kwargs := []
        config := none
        pandasDataField := none
        backtestingCacheField := some false }
  | "buy_and_hold" => some
      { className := "BuyAndHold"
        backtesting_datasource := some Datasource.PandasDataBacktesting
        kwargs := []
        config := none
        pandasDataField := some (some PoolRef.sharedPool)
        backtestingCacheField := some false }
  | "simple" => some
      { className := "Simple"
        backtesting_datasource := some Datasource.PandasDataBacktesting
        kwargs := []
        config := none
        pandasDataField := some (some PoolRef.sharedPool)
        backtestingCacheField := some false }
  | _ => none

/-- Python dict subscript `params["pandas_data"]`: raises `KeyError` when the
key is absent. -/
def dictGetPandasData : Option (Option PoolRef) → Except String (Option PoolRef)
  | some v => Except.ok v
  | none => Except.error "KeyError"

/-- Line 166 of the source:
`strategy_params["pandas_data"] if "pandas_data" in strategy_params else None`
— subscript guarded by an explicit key-presence check. -/
def resolvePandasData (p : StrategyParams) : Except String (Option PoolRef) :=
  if p.pandasDataField.isSome then
    dictGetPandasData p.pandasDataField
  else
    Except.ok none

/-- Python `int(...)` applied to the nonnegative float `time()`:
truncation to whole seconds, i.e. the floor for nonnegative readings. -/
def pyInt (q : ℚ) : Int := q.floor

/-- Line 172 of the source:
`stats_file = f"logs/strategy_{strategy_class.__name__}_{int(time())}.csv"`. -/
def statsFilePath (className : String) (t : Int) : String :=
  "logs/strategy_" ++ className ++ "_" ++ toString t ++ ".csv"

/-- The exceptions the dispatch loop can raise. -/
inductive DispatchError
  | unknownStrategy (name : String)
  | backtestUnsupported (name : String)
  | attributeError
  | keyError
deriving DecidableEq

/-- Observable external effects of one invocation, in program order. -/
inductive Event
  | statsPathGenerated (path : String)
  | addStrategy (strategyName className broker statsFile : String)
  | backtestCall (strategyName : String) (budget : Int) (datasource : Datasource)
      (wstart wend : Nat) (pool : List DataEntry) (statsFile : String)
  | elapsedPrinted (elapsed : ℚ)
  | benchmarkCall (symbol : String) (wstart wend : Nat)
  | runAll
deriving DecidableEq

/-- The environment: the streams of wall-clock `time()` readings and of
monotone `perf_counter()` readings, indexed by call count. -/
structure Env where
  time : Nat → ℚ
  perf : Nat → ℚ

/-- Mutable state of the `__main__` block: the shared `pandas_data` pool
(whose entries carry the rewritable owning-strategy label), the trace of
observable effects so far, and the number of clock calls made so far. -/
structure MainState where
  pool : List DataEntry
  events : List Event
  timeCalls : Nat
  perfCalls : Nat
deriving DecidableEq

/-- The pool as built by the startup loop: one `Data` object per ticker,
each constructed with the placeholder owning-strategy label
`"my_strategy"`. -/
def initialPool : List DataEntry :=
  tickers.map (fun t => { strategy := "my_strategy", symbol := t })

/-- State at entry of the dispatch loop. -/
def initialState : MainState :=
  { pool := initialPool, events := [], timeCalls := 0, perfCalls := 0 }

/-- One iteration of the dispatch loop (lines 159 to 210 of the source) for
one requested `strategy_name`.  Returns the state reached together with the
exception raised, if any; effects performed before a raise persist. -/
def dispatchOne (env : Env) (live_trading : Bool) (st : MainState)
    (strategy_name : String) : MainState × Option DispatchError :=
  match mapping strategy_name with
  | none => (st, some (DispatchError.unknownStrategy strategy_name))
  | some strategy_params =>
    match resolvePandasData strategy_params with
    | Except.error _ => (st, some DispatchError.keyError)
    | Except.ok pandas_data =>
      let t := pyInt (env.time st.timeCalls)
      let stats_file := statsFilePath strategy_params.className t
      let st := { st with
        timeCalls := st.timeCalls + 1
        events := st.events ++ [Event.statsPathGenerated stats_file] }
      if live_trading then
        ({ st with events := st.events ++
            [Event.addStrategy strategy_name strategy_params.className
              "alpaca_broker" stats_file] }, none)
      else
        match strategy_params.backtesting_datasource with
        | none => (st, some (DispatchError.backtestUnsupported strategy_name))
        | some ds =>
          match pandas_data with
          | none => (st, some DispatchError.attributeError)
          | some PoolRef.sharedPool =>
            let newPool := st.pool.map
              (fun d => { d with strategy := strategy_name })
            let tic := env.perf st.perfCalls
            let toc := env.perf (st.perfCalls + 1)
            ({ st with
                pool := newPool
                perfCalls := st.perfCalls + 2
                events := st.events ++
                  [Event.backtestCall strategy_name budget ds
                      backtesting_start backtesting_end newPool stats_file,
                    Event.elapsedPrinted (toc - tic),
                    Event.benchmarkCall benchmark_asset
                      backtesting_start backtesting_end] }, none)

/-- The `for strategy_name in strategies:` loop; an exception aborts the rest
of the list. -/
def runLoop (env : Env) (live_trading : Bool) :
    MainState → List String → MainState × Option DispatchError
  | st, [] => (st, none)
  | st, name :: rest =>
    match dispatchOne env live_trading st name with
    | (st1, none) => runLoop env live_trading st1 rest
    | (st1, some e) => (st1, some e)

/-- The whole `__main__` block after argument parsing: the dispatch loop
followed, in live mode, by the single `trader.run_all()` call.  An exception
escaping the loop skips `run_all`. -/
def runMain (env : Env) (live_trading : Bool) (strategies : List String) :
    MainState × Option DispatchError :=
  match runLoop env live_trading initialState strategies with
  | (st, some e) => (st, some e)
  | (st, none) =>
    if live_trading then
      ({ st with events := st.events ++ [Event.runAll] }, none)
    else
      (st, none)

/-! ### DataLoader: `pd.read_csv` column selection and the `Data` entity

The startup loop reads each `data/{ticker}.csv` with
`usecols=[0, 1, 2, 3, 4, 6]`: of the seven columns
(date plus six value columns) the sixth value column (index 5) is dropped and
the remaining ones are named `open`, `high`, `low`, `close`, `volume`.  The
rows are then handed to the `lumibot.entities.Data` constructor with
`date_start` and `date_end` bounds. -/

/-- One raw row of a source CSV file: the parsed date (column 0) and the six
value columns 1 to 6. -/
structure CsvRow where
  date : Nat
  col1 : Int
  col2 : Int
  col3 : Int
  col4 : Int
  col5 : Int
  col6 : Int
deriving DecidableEq

/-- One normalized OHLCV record with the five canonical fields. -/
structure OhlcvRecord where
  date : Nat
  open_ : Int
  high : Int
  low : Int
  close : Int
  volume : Int
deriving DecidableEq

/-- The column selection of the `pd.read_csv` call (lines 47 to 65):
`usecols=[0, 1, 2, 3, 4, 6]` keeps columns 0 to 4 and 6 and drops column 5;
the kept value columns become `open`, `high`, `low`, `close`, `volume`. -/
def readCsvRow (r : CsvRow) : OhlcvRecord :=
  { date := r.date, open_ := r.col1, high := r.col2, low := r.col3,
    close := r.col4, volume := r.col6 }

/-- Date order on normalized records, the sort key of the loaded dataset. -/
def recDateLE (a b : OhlcvRecord) : Prop := a.date ≤ b.date

instance : DecidableRel recDateLE := fun a b => Nat.decLe a.date b.date

instance : IsTotal OhlcvRecord recDateLE := ⟨fun a b => Nat.le_total a.date b.date⟩

instance : IsTrans OhlcvRecord recDateLE := ⟨fun _ _ _ => Nat.le_trans⟩

/-- Modelled from the spec: the `lumibot.entities.Data` constructor is not
under `src/` (only its call site is); per the spec it "parses date, open,
high, low, close, volume; normalizes column names/order to a canonical
schema; sorts ascending by date; restricts to the strategy-relevant horizon",
the horizon being the `[date_start, date_end]` window passed at the call
site. -/
def dataInit (rows : List OhlcvRecord) (date_start date_end : Nat) :
    List OhlcvRecord :=
  List.insertionSort recDateLE
    (rows.filter (fun r => date_start ≤ r.date && r.date ≤ date_end))

/-- The full per-ticker load of the startup loop: `pd.read_csv` column
selection followed by the `Data` constructor. -/
def loadDataset (rows : List CsvRow) (date_start date_end : Nat) :
    List OhlcvRecord :=
  dataInit (rows.map readCsvRow) date_start date_end

/-! ### Observation helpers -/

/-- Is the event a `trader.add_strategy` registration (live path)? -/
def Event.isAddStrategy : Event → Bool
  | Event.addStrategy _ _ _ _ => true
  | _ => false

/-- Is the event an invocation of the external backtest entry point
`strategy_class.backtest(...)`?  This is also the only event that passes a
stats-file path to code that creates the file. -/
def Event.isBacktestCall : Event → Bool
  | Event.backtestCall _ _ _ _ _ _ _ => true
  | _ => false

/-- Is the event the `trader.run_all()` call? -/
def Event.isRunAll : Event → Bool
  | Event.runAll => true
  | _ => false

/-- Is the event the generation of a stats-file path (line 172)? -/
def Event.isStatsPathGenerated : Event → Bool
  | Event.statsPathGenerated _ => true
  | _ => false

/-- Is the event an `indicators.calculate_returns` benchmark computation? -/
def Event.isBenchmarkCall : Event → Bool
  | Event.benchmarkCall _ _ _ => true
  | _ => false

/-- The stats-file path generated by one dispatch iteration: the payload of
the first event the iteration appends, when that event is a
`statsPathGenerated`. -/
def pathGeneratedBy (env : Env) (live_trading : Bool) (st : MainState)
    (name : String) : Option String :=
  match (dispatchOne env live_trading st name).1.events.drop st.events.length with
  | Event.statsPathGenerated p :: _ => some p
  | _ => none

/-- A concrete environment whose wall clock constantly reads `q` seconds and
whose performance counter reads `n` at its `n`-th call. -/
def constEnv (q : ℚ) : Env := { time := fun _ => q, perf := fun n => (n : ℚ) }

/-- A small concrete source file for evaluation: three rows with distinct
dates, out of chronological order, the last row outside the loading
window. -/
def sampleRows : List CsvRow :=
  [{ date := datetime 2019 2 12, col1 := 1, col2 := 2, col3 := 3, col4 := 4,
     col5 := 5, col6 := 6 },
   { date := datetime 2019 1 8, col1 := 10, col2 := 20, col3 := 30, col4 := 40,
     col5 := 50, col6 := 60 },
   { date := datetime 2019 12 31, col1 := 7, col2 := 7, col3 := 7, col4 := 7,
     col5 := 7, col6 := 7 }]

/-! ### Branch equations for `dispatchOne` -/

/-- The guarded resolution of the `"pandas_data"` key never raises: it yields
the stored value when the key is present and `None` when it is absent. -/
theorem resolvePandasData_ok (p : StrategyParams) :
    resolvePandasData p = Except.ok (p.pandasDataField.getD none) := by
  cases h : p.pandasDataField <;>
    simp [resolvePandasData, dictGetPandasData, h]

/-- Dispatching a name absent from the registry raises immediately and leaves
the state untouched. -/
theorem dispatchOne_unknown (env : Env) (live_trading : Bool) (st : MainState)
    (name : String) (hu : mapping name = none) :
    dispatchOne env live_trading st name =
      (st, some (DispatchError.unknownStrategy name)) := by
  simp [dispatchOne, hu]

/-- The live branch: generate the stats path, construct the strategy against
the shared broker, register it; no exception. -/
theorem dispatchOne_live_eq (env : Env) (st : MainState) (name : String)
    (p : StrategyParams) (hm : mapping name = some p) :
    dispatchOne env true st name =
      ({ st with
          timeCalls := st.timeCalls + 1
          events := st.events ++
            [Event.statsPathGenerated
                (statsFilePath p.className (pyInt (env.time st.timeCalls))),
              Event.addStrategy name p.className "alpaca_broker"
                (statsFilePath p.className (pyInt (env.time st.timeCalls)))] },
        none) := by
  simp [dispatchOne, hm, resolvePandasData_ok]

/-- The backtest branch for a strategy with no configured data source:
generate the stats path, then raise the unsupported-backtest error. -/
theorem dispatchOne_backtest_noDatasource (env : Env) (st : MainState)
    (name : String) (p : StrategyParams) (hm : mapping name = some p)
    (hds : p.backtesting_datasource = none) :
    dispatchOne env false st name =
      ({ st with
          timeCalls := st.timeCalls + 1
          events := st.events ++
            [Event.statsPathGenerated
                (statsFilePath p.className (pyInt (env.time st.timeCalls)))] },
        some (DispatchError.backtestUnsupported name)) := by
  simp [dispatchOne, hm, resolvePandasData_ok, hds]

/-- The backtest branch for a strategy whose `"pandas_data"` key is present
with value `None`: the data-source check passes, then iterating
`None.values()` raises `AttributeError` before the backtest entry point. -/
theorem dispatchOne_backtest_noPool (env : Env) (st : MainState)
    (name : String) (p : StrategyParams) (ds : Datasource)
    (hm : mapping name = some p) (hds : p.backtesting_datasource = some ds)
    (hp : p.pandasDataField.getD none = none) :
    dispatchOne env false st name =
      ({ st with
          timeCalls := st.timeCalls + 1
          events := st.events ++
            [Event.statsPathGenerated
                (statsFilePath p.className (pyInt (env.time st.timeCalls)))] },
        some DispatchError.attributeError) := by
  simp [dispatchOne, hm, resolvePandasData_ok, hds, hp]

/-- The successful backtest branch: rewrite every pool label to the current
name, call the backtest entry point on the rewritten pool, print the elapsed
time, compute the benchmark. -/
theorem dispatchOne_backtest_shared (env : Env) (st : MainState)
    (name : String) (p : StrategyParams) (ds : Datasource)
    (hm : mapping name = some p) (hds : p.backtesting_datasource = some ds)
    (hp : p.pandasDataField = some (some PoolRef.sharedPool)) :
    dispatchOne env false st name =
      ({ st with
          pool := st.pool.map (fun d => { d with strategy := name })
          timeCalls := st.timeCalls + 1
          perfCalls := st.perfCalls + 2
          events := st.events ++
            [Event.statsPathGenerated
                (statsFilePath p.className (pyInt (env.time st.timeCalls))),
              Event.backtestCall name budget ds backtesting_start backtesting_end
                (st.pool.map (fun d => { d with strategy := name }))
                (statsFilePath p.className (pyInt (env.time st.timeCalls))),
              Event.elapsedPrinted
                (env.perf (st.perfCalls + 1) - env.perf st.perfCalls),
              Event.benchmarkCall benchmark_asset backtesting_start
                backtesting_end] },
        none) := by
  simp [dispatchOne, hm, resolvePandasData_ok, hds, hp]

/-! ### Trace shape of the loop -/

/-- One dispatch iteration only appends events, never a `runAll`, and the
appended events are live-path events in live mode and backtest-path events in
backtest mode. -/
theorem dispatchOne_events_shape (env : Env) (live_trading : Bool)
    (st : MainState) (name : String) :
    ∃ new, (dispatchOne env live_trading st name).1.events = st.events ++ new ∧
      ∀ e ∈ new, e.isRunAll = false ∧
        (live_trading = true → e.isBacktestCall = false) ∧
        (live_trading = false → e.isAddStrategy = false) := by
  rcases hm : mapping name with _ | p
  · exact ⟨[], by rw [dispatchOne_unknown env live_trading st name hm]; simp, by simp⟩
  · cases live_trading
    · rcases hds : p.backtesting_datasource with _ | ds
      · refine ⟨_, by rw [dispatchOne_backtest_noDatasource env st name p hm hds], ?_⟩
        simp [Event.isRunAll, Event.isBacktestCall, Event.isAddStrategy]
      · rcases hp : p.pandasDataField with _ | (_ | ⟨⟩)
        · refine ⟨_,
            by rw [dispatchOne_backtest_noPool env st name p ds hm hds (by simp [hp])], ?_⟩
          simp [Event.isRunAll, Event.isBacktestCall, Event.isAddStrategy]
        · refine ⟨_,
            by rw [dispatchOne_backtest_noPool env st name p ds hm hds (by simp [hp])], ?_⟩
          simp [Event.isRunAll, Event.isBacktestCall, Event.isAddStrategy]
        · refine ⟨_, by rw [dispatchOne_backtest_shared env st name p ds hm hds hp], ?_⟩
          simp [Event.isRunAll, Event.isBacktestCall, Event.isAddStrategy]
    · refine ⟨_, by rw [dispatchOne_live_eq env st name p hm], ?_⟩
      simp [Event.isRunAll, Event.isBacktestCall, Event.isAddStrategy]

/-- The dispatch loop only appends events, never a `runAll`, and the appended
events are homogeneous in the mode of the invocation. -/
theorem runLoop_events_shape (env : Env) (live_trading : Bool) :
    ∀ (names : List String) (st : MainState),
    ∃ new, (runLoop env live_trading st names).1.events = st.events ++ new ∧
      ∀ e ∈ new, e.isRunAll = false ∧
        (live_trading = true → e.isBacktestCall = false) ∧
        (live_trading = false → e.isAddStrategy = false)
  | [], st => ⟨[], by simp [runLoop], by simp⟩
  | n :: rest, st => by
    obtain ⟨new1, hev1, hall1⟩ := dispatchOne_events_shape env live_trading st n
    rcases hd : dispatchOne env live_trading st n with ⟨st1, err⟩
    rw [hd] at hev1
    rcases err with _ | e
    · obtain ⟨new2, hev2, hall2⟩ := runLoop_events_shape env live_trading rest st1
      refine ⟨new1 ++ new2, ?_, ?_⟩
      · simp only [runLoop, hd]
        rw [hev2, hev1, List.append_assoc]
      · intro e he
        rcases List.mem_append.mp he with h | h
        · exact hall1 e h
        · exact hall2 e h
    · exact ⟨new1, by simp only [runLoop, hd]; exact hev1, hall1⟩

/-- Reduction of `runMain` when the loop finishes without an exception. -/
theorem runMain_loop_none (env : Env) (live_trading : Bool)
    (strategies : List String) (st1 : MainState)
    (h : runLoop env live_trading initialState strategies = (st1, none)) :
    runMain env live_trading strategies =
      if live_trading then
        ({ st1 with events := st1.events ++ [Event.runAll] }, none)
      else (st1, none) := by
  unfold runMain
  rw [h]

/-- Reduction of `runMain` when an exception escapes the loop: the error and
the partial state propagate and `run_all` is skipped. -/
theorem runMain_loop_some (env : Env) (live_trading : Bool)
    (strategies : List String) (st1 : MainState) (e : DispatchError)
    (h : runLoop env live_trading initialState strategies = (st1, some e)) :
    runMain env live_trading strategies = (st1, some e) := by
  unfold runMain
  rw [h]

/-- Every event of a full invocation respects the single live/backtest mode
decision. -/
theorem runMain_events_shape (env : Env) (live_trading : Bool)
    (strategies : List String) :
    ∀ e ∈ (runMain env live_trading strategies).1.events,
      (live_trading = true → e.isBacktestCall = false) ∧
      (live_trading = false → e.isAddStrategy = false) := by
  obtain ⟨new, hev, hall⟩ := runLoop_events_shape env live_trading strategies initialState
  rcases hl : runLoop env live_trading initialState strategies with ⟨st1, err⟩
  rw [hl] at hev
  simp only [initialState, List.nil_append] at hev
  intro e he
  rcases err with _ | er
  · rw [runMain_loop_none env live_trading strategies st1 hl] at he
    by_cases hlive : live_trading = true
    · rw [if_pos hlive] at he
      simp only at he
      rw [hev] at he
      rcases List.mem_append.mp he with h | h
      · exact (hall e h).2
      · simp only [List.mem_singleton] at h
        subst h
        exact ⟨fun _ => rfl, fun _ => rfl⟩
    · rw [if_neg hlive] at he
      rw [hev] at he
      exact (hall e he).2
  · rw [runMain_loop_some env live_trading strategies st1 er hl] at he
    rw [hev] at he
    exact (hall e he).2

/-- In live mode, every registered name dispatches without an exception,
appending exactly one stats-path event and one registration against the
shared broker; the loop therefore registers one instance per requested name
and performs no backtest call and no `runAll`. -/
theorem runLoop_live_registered (env : Env) :
    ∀ (names : List String) (st : MainState),
    (∀ n ∈ names, (mapping n).isSome = true) →
    (runLoop env true st names).2 = none ∧
    (runLoop env true st names).1.events.countP Event.isAddStrategy =
      st.events.countP Event.isAddStrategy + names.length ∧
    (runLoop env true st names).1.events.countP Event.isBacktestCall =
      st.events.countP Event.isBacktestCall ∧
    (runLoop env true st names).1.events.countP Event.isRunAll =
      st.events.countP Event.isRunAll ∧
    ∀ nm cl b sf, Event.addStrategy nm cl b sf ∈ (runLoop env true st names).1.events →
      Event.addStrategy nm cl b sf ∈ st.events ∨ b = "alpaca_broker"
  | [], st, _ => by
    refine ⟨rfl, ?_, rfl, rfl, ?_⟩
    · simp [runLoop]
    · intro nm cl b sf h
      exact Or.inl h
  | n :: rest, st, h => by
    rcases Option.isSome_iff_exists.mp (h n (List.mem_cons_self n rest)) with ⟨p, hm⟩
    have hd := dispatchOne_live_eq env st n p hm
    have hrec := runLoop_live_registered env rest
      ({ st with
          timeCalls := st.timeCalls + 1
          events := st.events ++
            [Event.statsPathGenerated
                (statsFilePath p.className (pyInt (env.time st.timeCalls))),
              Event.addStrategy n p.className "alpaca_broker"
                (statsFilePath p.className (pyInt (env.time st.timeCalls)))] })
      (fun m hmem => h m (List.mem_cons_of_mem n hmem))
    rw [show runLoop env true st (n :: rest) =
        runLoop env true
          ({ st with
              timeCalls := st.timeCalls + 1
              events := st.events ++
                [Event.statsPathGenerated
                    (statsFilePath p.className (pyInt (env.time st.timeCalls))),
                  Event.addStrategy n p.className "alpaca_broker"
                    (statsFilePath p.className (pyInt (env.time st.timeCalls)))] })
          rest
      from by simp only [runLoop, hd]]
    refine ⟨hrec.1, ?_, ?_, ?_, ?_⟩
    · rw [hrec.2.1]
      simp [List.countP_append, List.countP_cons, Event.isAddStrategy]
      omega
    · rw [hrec.2.2.1]
      simp [List.countP_append, Event.isBacktestCall, List.countP_cons]
    · rw [hrec.2.2.2.1]
      simp [List.countP_append, Event.isRunAll, List.countP_cons]
    · intro nm cl b sf hmem
      rcases hrec.2.2.2.2 nm cl b sf hmem with hin | hb
      · rcases List.mem_append.mp hin with h1 | h1
        · exact Or.inl h1
        · right
          rcases List.mem_cons.mp h1 with h2 | h2
          · exact Event.noConfusion h2
          · rcases List.mem_cons.mp h2 with h3 | h3
            · injection h3 with h3a h3b h3c h3d
            · exact absurd h3 (List.not_mem_nil _)
      · exact Or.inr hb

/-- Every dispatch of a registered name generates, as its first effect, the
stats-file path built from the strategy class name and the truncated
wall-clock reading, in every mode and on every branch. -/
theorem pathGeneratedBy_eq (env : Env) (live_trading : Bool) (st : MainState)
    (name : String) (p : StrategyParams) (hm : mapping name = some p) :
    pathGeneratedBy env live_trading st name =
      some (statsFilePath p.className (pyInt (env.time st.timeCalls))) := by
  cases live_trading
  · rcases hds : p.backtesting_datasource with _ | ds
    · rw [pathGeneratedBy, dispatchOne_backtest_noDatasource env st name p hm hds]
      simp
    · rcases hp : p.pandasDataField with _ | (_ | ⟨⟩)
      · rw [pathGeneratedBy,
          dispatchOne_backtest_noPool env st name p ds hm hds (by simp [hp])]
        simp
      · rw [pathGeneratedBy,
          dispatchOne_backtest_noPool env st name p ds hm hds (by simp [hp])]
        simp
      · rw [pathGeneratedBy, dispatchOne_backtest_shared env st name p ds hm hds hp]
        simp
  · rw [pathGeneratedBy, dispatchOne_live_eq env st name p hm]
    simp

/-! ### Claims -/

/-- C1 (counterexample): with `strategies = ["buy_and_hold", "nope"]` in
backtest mode, the batch does fail with the unknown-strategy error for
`"nope"`, but before that the run for the earlier valid name has already
executed: one stats-file path was generated and one backtest entry-point
call was made.  This refutes the claim that, whenever the list contains an
unknown name, no stats-file path is generated and no backtest entry point is
invoked for any of the requested names, including valid names earlier in the
list. -/
theorem unknown_strategy_counterexample :
    (runMain (constEnv 5) false ["buy_and_hold", "nope"]).2 =
      some (DispatchError.unknownStrategy "nope") ∧
    (runMain (constEnv 5) false ["buy_and_hold", "nope"]).1.events.countP
      Event.isBacktestCall = 1 ∧
    (runMain (constEnv 5) false ["buy_and_hold", "nope"]).1.events.countP
      Event.isStatsPathGenerated = 1 := by
  decide

/-- C1 (amended): when the dispatch loop reaches a requested name absent from
the registry, it fails with the unknown-strategy error and the batch aborts
from that point on: the failing iteration performs no effect at all (no
stats-file path, no backtest call, no registration), the remaining names are
never dispatched, and an invocation aborted by any error never reaches the
batch runner's `run_all`.  Runs for valid names earlier in the list have
already executed by then. -/
theorem unknown_strategy_aborts_at_that_point (env : Env) (live_trading : Bool)
    (st : MainState) (name : String) (post : List String)
    (hu : mapping name = none) :
    runLoop env live_trading st (name :: post) =
      (st, some (DispatchError.unknownStrategy name)) ∧
    ∀ strategies, (runLoop env live_trading initialState strategies).2 ≠ none →
      (runMain env live_trading strategies).1.events.countP Event.isRunAll = 0 := by
  constructor
  · simp only [runLoop, dispatchOne_unknown env live_trading st name hu]
  · intro strategies herr
    obtain ⟨new, hev, hall⟩ :=
      runLoop_events_shape env live_trading strategies initialState
    rcases hl : runLoop env live_trading initialState strategies with ⟨st1, err⟩
    rw [hl] at hev
    simp only [initialState, List.nil_append] at hev
    rcases err with _ | er
    · exact absurd (by rw [hl]) herr
    · rw [runMain_loop_some env live_trading strategies st1 er hl]
      rw [hev]
      exact List.countP_eq_zero.mpr (fun e he => by simp [(hall e he).1])

/-- C1 (witness for the amended theorem): dispatching the unknown name
`"nope"` as the first requested strategy aborts immediately with the state
untouched, and the aborted invocation never calls `run_all`. -/
theorem unknown_strategy_aborts_at_that_point_witness :
    runLoop (constEnv 5) false initialState ["nope", "buy_and_hold"] =
      (initialState, some (DispatchError.unknownStrategy "nope")) ∧
    (runMain (constEnv 5) false ["nope", "buy_and_hold"]).1.events.countP
      Event.isRunAll = 0 := by
  have h := unknown_strategy_aborts_at_that_point (constEnv 5) false
    initialState "nope" ["buy_and_hold"] (by decide)
  exact ⟨h.1, h.2 ["nope", "buy_and_hold"] (by decide)⟩

/-- C2: dispatching a registered strategy whose configuration has no backtest
data source in backtest mode raises the explicit unsupported-backtest error;
on that path the only effect is the generated path string: the backtest entry
point is not invoked (so no stats file is created, the entry point being the
only consumer of the path), and no pool label is rewritten — the pool is
unchanged. -/
theorem backtest_unsupported_error_path (env : Env) (st : MainState)
    (name : String) (p : StrategyParams)
    (hm : mapping name = some p) (hds : p.backtesting_datasource = none) :
    (dispatchOne env false st name).2 =
      some (DispatchError.backtestUnsupported name) ∧
    (dispatchOne env false st name).1.pool = st.pool ∧
    (dispatchOne env false st name).1.events = st.events ++
      [Event.statsPathGenerated
        (statsFilePath p.className (pyInt (env.time st.timeCalls)))] ∧
    (dispatchOne env false st name).1.events.countP Event.isBacktestCall =
      st.events.countP Event.isBacktestCall := by
  rw [dispatchOne_backtest_noDatasource env st name p hm hds]
  refine ⟨rfl, rfl, rfl, ?_⟩
  simp [List.countP_append, Event.isBacktestCall]

/-- C2 (witness): the `intraday_momentum` entry has no backtest data source;
dispatching it in backtest mode fails with the unsupported-backtest error and
leaves the pool unchanged. -/
theorem backtest_unsupported_error_path_witness :
    (dispatchOne (constEnv 5) false initialState "intraday_momentum").2 =
      some (DispatchError.backtestUnsupported "intraday_momentum") ∧
    (dispatchOne (constEnv 5) false initialState "intraday_momentum").1.pool =
      initialState.pool ∧
    (dispatchOne (constEnv 5) false initialState "intraday_momentum").1.events.countP
      Event.isBacktestCall = 0 := by
  have h := backtest_unsupported_error_path (constEnv 5) initialState
    "intraday_momentum" _ rfl rfl
  exact ⟨h.1, h.2.1, h.2.2.2⟩

/-- C9: the `debt_trading` entry has a configured backtest data source
(`YahooDataBacktesting`) but its `"pandas_data"` key is explicitly `None`;
dispatching it in backtest mode passes the unsupported-backtest check and
then raises `AttributeError` while iterating `None.values()` for the label
rewrite, before the backtest entry point is ever invoked: the only effect is
the generated path string. -/
theorem debt_trading_attribute_error_before_backtest (env : Env)
    (st : MainState) :
    (∃ p, mapping "debt_trading" = some p ∧
        p.backtesting_datasource = some Datasource.YahooDataBacktesting ∧
        p.pandasDataField = some none) ∧
    dispatchOne env false st "debt_trading" =
      ({ st with
          timeCalls := st.timeCalls + 1
          events := st.events ++ [Event.statsPathGenerated
            (statsFilePath "DebtTrading" (pyInt (env.time st.timeCalls)))] },
        some DispatchError.attributeError) := by
  have hm : mapping "debt_trading" = some
      { className := "DebtTrading"
        backtesting_datasource := some Datasource.YahooDataBacktesting
        kwargs := []
        config := none
        pandasDataField := some none
        backtestingCacheField := none } := rfl
  refine ⟨⟨_, hm, rfl, rfl⟩, ?_⟩
  have h2 := dispatchOne_backtest_noPool env st "debt_trading" _
    Datasource.YahooDataBacktesting hm rfl rfl
  rw [h2]

/-- C10: resolving the optional `"pandas_data"` binding of any registered
entry is total: it reads the key through an explicit presence check, never
raises a missing-key error, and yields `None` for entries that omit the key
entirely (such as `intraday_momentum` and `fast_trading`). -/
theorem pandas_data_resolution_total (name : String) (p : StrategyParams)
    (hm : mapping name = some p) :
    resolvePandasData p = Except.ok (p.pandasDataField.getD none) ∧
    (p.pandasDataField = none → resolvePandasData p = Except.ok none) ∧
    ∀ env live_trading st,
      (dispatchOne env live_trading st name).2 ≠ some DispatchError.keyError := by
  refine ⟨resolvePandasData_ok p, ?_, ?_⟩
  · intro h
    rw [resolvePandasData_ok p, h]
    rfl
  · intro env live_trading st
    cases live_trading
    · rcases hds : p.backtesting_datasource with _ | ds
      · rw [dispatchOne_backtest_noDatasource env st name p hm hds]
        simp
      · rcases hp : p.pandasDataField with _ | (_ | ⟨⟩)
        · rw [dispatchOne_backtest_noPool env st name p ds hm hds (by simp [hp])]
          simp
        · rw [dispatchOne_backtest_noPool env st name p ds hm hds (by simp [hp])]
          simp
        · rw [dispatchOne_backtest_shared env st name p ds hm hds hp]
          simp
    · rw [dispatchOne_live_eq env st name p hm]
      simp

/-- C10 (witness): the `intraday_momentum` entry omits the `"pandas_data"`
key; its resolution succeeds and yields `None`, and no dispatch of it can
raise a missing-key error. -/
theorem pandas_data_resolution_total_witness :
    ∃ p, mapping "intraday_momentum" = some p ∧
      resolvePandasData p = Except.ok none ∧
      (dispatchOne (constEnv 5) false initialState "intraday_momentum").2 ≠
        some DispatchError.keyError := by
  refine ⟨_, rfl, ?_, ?_⟩
  · exact (pandas_data_resolution_total "intraday_momentum" _ rfl).2.1 rfl
  · exact (pandas_data_resolution_total "intraday_momentum" _ rfl).2.2
      (constEnv 5) false initialState

/-- C3: the live/backtest decision is the single boolean fixed before the
dispatch loop; every invocation is homogeneous: either no event of the run is
a backtest entry-point call, or no event is a live registration — the two
paths never mix within one invocation. -/
theorem single_mode_per_invocation (env : Env) (live_trading : Bool)
    (strategies : List String) :
    (∀ e ∈ (runMain env live_trading strategies).1.events,
      e.isBacktestCall = false) ∨
    (∀ e ∈ (runMain env live_trading strategies).1.events,
      e.isAddStrategy = false) := by
  cases live_trading
  · right
    intro e he
    exact (runMain_events_shape env false strategies e he).2 rfl
  · left
    intro e he
    exact (runMain_events_shape env true strategies e he).1 rfl

/-- C4: in live mode with every requested name registered, execution is
deferred: the loop registers exactly one instance per requested name, each
against the shared broker, performs zero backtest calls, and the single
`run_all` call happens exactly once, after the whole loop, as the last
event. -/
theorem live_mode_deferred_execution (env : Env) (strategies : List String)
    (h : ∀ n ∈ strategies, (mapping n).isSome = true) :
    (runMain env true strategies).2 = none ∧
    (runMain env true strategies).1.events.countP Event.isAddStrategy =
      strategies.length ∧
    (runMain env true strategies).1.events.countP Event.isRunAll = 1 ∧
    (runMain env true strategies).1.events.countP Event.isBacktestCall = 0 ∧
    (runMain env true strategies).1.events.getLast? = some Event.runAll ∧
    ∀ nm cl b sf,
      Event.addStrategy nm cl b sf ∈ (runMain env true strategies).1.events →
        b = "alpaca_broker" := by
  obtain ⟨hok, hadd, hbt, hra, hbroker⟩ :=
    runLoop_live_registered env strategies initialState h
  rcases hl : runLoop env true initialState strategies with ⟨st1, err⟩
  rw [hl] at hok hadd hbt hra hbroker
  simp only at hok
  subst hok
  rw [runMain_loop_none env true strategies st1 hl, if_pos rfl]
  simp only [initialState, List.countP_nil, Nat.zero_add] at hadd hbt hra hbroker
  refine ⟨rfl, ?_, ?_, ?_, ?_, ?_⟩
  · simp [List.countP_append, List.countP_cons, Event.isAddStrategy, hadd]
  · simp [List.countP_append, List.countP_cons, Event.isRunAll, hra]
  · simp [List.countP_append, List.countP_cons, Event.isBacktestCall, hbt]
  · exact List.getLast?_concat st1.events
  · intro nm cl b sf hmem
    rcases List.mem_append.mp hmem with h1 | h1
    · rcases hbroker nm cl b sf h1 with h2 | h2
      · exact absurd h2 (List.not_mem_nil _)
      · exact h2
    · rcases List.mem_cons.mp h1 with h2 | h2
      · exact Event.noConfusion h2
      · exact absurd h2 (List.not_mem_nil _)

/-- C4 (witness): Scenario C — two registered names in live mode yield two
registrations against the shared broker, exactly one `run_all` as the final
event, and zero backtest calls. -/
theorem live_mode_deferred_execution_witness :
    (∀ n ∈ ["momentum_pandas", "diversification"], (mapping n).isSome = true) ∧
    (runMain (constEnv 5) true ["momentum_pandas", "diversification"]).2 = none ∧
    (runMain (constEnv 5) true
      ["momentum_pandas", "diversification"]).1.events.countP
        Event.isAddStrategy = 2 ∧
    (runMain (constEnv 5) true
      ["momentum_pandas", "diversification"]).1.events.countP
        Event.isRunAll = 1 ∧
    (runMain (constEnv 5) true
      ["momentum_pandas", "diversification"]).1.events.countP
        Event.isBacktestCall = 0 := by
  have h := live_mode_deferred_execution (constEnv 5)
    ["momentum_pandas", "diversification"] (by decide)
  exact ⟨by decide, h.1, h.2.1, h.2.2.1, h.2.2.2.1⟩

/-- C5: the stats-file path generated by any dispatch of a registered name is
exactly `logs/strategy_` ++ the strategy class name ++ `_` ++ the wall-clock
reading truncated to whole seconds ++ `.csv`; consequently any two dispatches
of the same strategy type whose run-start readings truncate to the same
second generate equal paths — they collide. -/
theorem stats_file_naming_collision (env env2 : Env)
    (live_trading live2 : Bool) (st st2 : MainState) (name name2 : String)
    (p p2 : StrategyParams)
    (hm : mapping name = some p) (hm2 : mapping name2 = some p2) :
    pathGeneratedBy env live_trading st name =
      some ("logs/strategy_" ++ p.className ++ "_" ++
        toString (pyInt (env.time st.timeCalls)) ++ ".csv") ∧
    (p2.className = p.className →
      pyInt (env2.time st2.timeCalls) = pyInt (env.time st.timeCalls) →
      pathGeneratedBy env2 live2 st2 name2 =
        pathGeneratedBy env live_trading st name) := by
  refine ⟨pathGeneratedBy_eq env live_trading st name p hm, ?_⟩
  intro hc ht
  rw [pathGeneratedBy_eq env2 live2 st2 name2 p2 hm2,
    pathGeneratedBy_eq env live_trading st name p hm, statsFilePath,
    statsFilePath, hc, ht]

/-- C5 (witness): two dispatches of the `BuyAndHold` strategy type, from
different loop states but with wall-clock readings in the same second,
generate the same colliding path `logs/strategy_BuyAndHold_5.csv`. -/
theorem stats_file_naming_collision_witness :
    pathGeneratedBy (constEnv 5) false initialState "buy_and_hold" =
      some "logs/strategy_BuyAndHold_5.csv" ∧
    pathGeneratedBy (constEnv 5) true
        (dispatchOne (constEnv 5) true initialState "simple").1 "buy_and_hold" =
      pathGeneratedBy (constEnv 5) false initialState "buy_and_hold" := by
  have h := stats_file_naming_collision (constEnv 5) (constEnv 5) false true
    initialState ((dispatchOne (constEnv 5) true initialState "simple").1)
    "buy_and_hold" "buy_and_hold" _ _ rfl rfl
  exact ⟨h.1.trans (by decide), h.2 rfl rfl⟩

/-- C6: a backtest dispatch of a strategy bound to the shared pool rewrites
the owning-strategy label of every dataset in the pool to the dispatched name
immediately before the backtest entry point is invoked (the backtest call
receives the rewritten pool); after a second such dispatch in the same
invocation, no label of the shared pool equals the first dispatched name any
more. -/
theorem shared_pool_label_rewrite (env : Env) (st : MainState)
    (n1 n2 : String) (p1 p2 : StrategyParams) (ds1 ds2 : Datasource)
    (h1 : mapping n1 = some p1) (h2 : mapping n2 = some p2)
    (hd1 : p1.backtesting_datasource = some ds1)
    (hd2 : p2.backtesting_datasource = some ds2)
    (hp1 : p1.pandasDataField = some (some PoolRef.sharedPool))
    (hp2 : p2.pandasDataField = some (some PoolRef.sharedPool)) :
    (dispatchOne env false st n1).1.pool =
      st.pool.map (fun d => { d with strategy := n1 }) ∧
    Event.backtestCall n1 budget ds1 backtesting_start backtesting_end
        ((dispatchOne env false st n1).1.pool)
        (statsFilePath p1.className (pyInt (env.time st.timeCalls)))
      ∈ (dispatchOne env false st n1).1.events ∧
    (∀ d ∈ (dispatchOne env false (dispatchOne env false st n1).1 n2).1.pool,
      d.strategy = n2) ∧
    (n1 ≠ n2 →
      ∀ d ∈ (dispatchOne env false (dispatchOne env false st n1).1 n2).1.pool,
        d.strategy ≠ n1) := by
  rw [dispatchOne_backtest_shared env st n1 p1 ds1 h1 hd1 hp1]
  dsimp only
  rw [dispatchOne_backtest_shared env _ n2 p2 ds2 h2 hd2 hp2]
  dsimp only
  refine ⟨rfl, by simp, ?_, ?_⟩
  · intro d hd
    rcases List.mem_map.mp hd with ⟨a, ha, hae⟩
    rw [← hae]
  · intro hne d hd
    rcases List.mem_map.mp hd with ⟨a, ha, hae⟩
    rw [← hae]
    exact fun hcontra => hne hcontra.symm

/-- C6 (witness): backtesting `momentum_pandas` then `diversification` in one
invocation relabels the shared five-asset pool to `momentum_pandas` before
the first backtest call, and after the second dispatch every label reads
`diversification`, not `momentum_pandas`. -/
theorem shared_pool_label_rewrite_witness :
    (dispatchOne (constEnv 5) false initialState "momentum_pandas").1.pool =
      initialState.pool.map (fun d => { d with strategy := "momentum_pandas" }) ∧
    (∀ d ∈ (dispatchOne (constEnv 5) false
        (dispatchOne (constEnv 5) false initialState "momentum_pandas").1
        "diversification").1.pool,
      d.strategy = "diversification") ∧
    (∀ d ∈ (dispatchOne (constEnv 5) false
        (dispatchOne (constEnv 5) false initialState "momentum_pandas").1
        "diversification").1.pool,
      d.strategy ≠ "momentum_pandas") := by
  have h := shared_pool_label_rewrite (constEnv 5) initialState
    "momentum_pandas" "diversification" _ _
    Datasource.PandasDataBacktesting Datasource.PandasDataBacktesting
    rfl rfl rfl rfl rfl rfl
  exact ⟨h.1, h.2.2.1, h.2.2.2 (by decide)⟩

/-- C8: a completed backtest dispatch performs, in order, the backtest
entry-point call and then exactly one benchmark computation for the fixed
reference instrument SPY over the identical backtesting window, independent
of the result; the elapsed time printed around the backtest call is the
difference of two consecutive monotone performance-counter readings and is
nonnegative. -/
theorem backtest_benchmark_once_and_timing (env : Env) (st : MainState)
    (name : String) (p : StrategyParams) (ds : Datasource)
    (hm : mapping name = some p) (hds : p.backtesting_datasource = some ds)
    (hp : p.pandasDataField = some (some PoolRef.sharedPool))
    (hmono : Monotone env.perf) :
    (dispatchOne env false st name).2 = none ∧
    (dispatchOne env false st name).1.events = st.events ++
      [Event.statsPathGenerated
          (statsFilePath p.className (pyInt (env.time st.timeCalls))),
        Event.backtestCall name budget ds backtesting_start backtesting_end
          (st.pool.map fun d => { d with strategy := name })
          (statsFilePath p.className (pyInt (env.time st.timeCalls))),
        Event.elapsedPrinted
          (env.perf (st.perfCalls + 1) - env.perf st.perfCalls),
        Event.benchmarkCall "SPY" backtesting_start backtesting_end] ∧
    0 ≤ env.perf (st.perfCalls + 1) - env.perf st.perfCalls := by
  rw [dispatchOne_backtest_shared env st name p ds hm hds hp]
  refine ⟨rfl, rfl, ?_⟩
  have hle := hmono (Nat.le_succ st.perfCalls)
  linarith

/-- C8 (witness): Scenario A shape — backtesting `buy_and_hold` with a
monotone performance counter completes without an exception and prints a
nonnegative elapsed time. -/
theorem backtest_benchmark_once_and_timing_witness :
    (dispatchOne (constEnv 5) false initialState "buy_and_hold").2 = none ∧
    0 ≤ (constEnv 5).perf (initialState.perfCalls + 1) -
        (constEnv 5).perf initialState.perfCalls := by
  have h := backtest_benchmark_once_and_timing (constEnv 5) initialState
    "buy_and_hold" _ Datasource.PandasDataBacktesting rfl rfl rfl
    (fun a b hab => by dsimp only [constEnv]; exact_mod_cast hab)
  exact ⟨h.1, h.2.2⟩

/-- C7: for every well-formed source file (rows with pairwise distinct
dates), the loaded dataset has as many records as the source rows whose dates
lie within the closed window `[date_start, date_end]`, its records are
strictly ascending by date regardless of the row order in the source file,
and each record is the five-field normalization of a source row — the kept
fields are columns 1 to 4 and 6 (open, high, low, close, volume) with the
sixth value column dropped, as `readCsvRow` states. -/
theorem loaded_dataset_normalized (rows : List CsvRow)
    (date_start date_end : Nat)
    (hwf : (rows.map CsvRow.date).Nodup) :
    (loadDataset rows date_start date_end).length =
      (rows.filter (fun r => date_start ≤ r.date && r.date ≤ date_end)).length ∧
    (loadDataset rows date_start date_end).Pairwise
      (fun a b => a.date < b.date) ∧
    ∀ rec ∈ loadDataset rows date_start date_end,
      ∃ row ∈ rows, rec = readCsvRow row := by
  unfold loadDataset dataInit
  have hfilter : (rows.map readCsvRow).filter
      (fun r => date_start ≤ r.date && r.date ≤ date_end) =
      (rows.filter
        (fun r => date_start ≤ r.date && r.date ≤ date_end)).map readCsvRow :=
    List.filter_map readCsvRow rows
  refine ⟨?_, ?_, ?_⟩
  · rw [(List.perm_insertionSort recDateLE _).length_eq, hfilter,
      List.length_map]
  · have hsorted := List.sorted_insertionSort recDateLE
      ((rows.map readCsvRow).filter
        (fun r => date_start ≤ r.date && r.date ≤ date_end))
    have hnd : ((List.insertionSort recDateLE
        ((rows.map readCsvRow).filter
          (fun r => date_start ≤ r.date && r.date ≤ date_end))).map
        OhlcvRecord.date).Nodup := by
      refine (((List.perm_insertionSort recDateLE _).map
        OhlcvRecord.date).nodup_iff).mpr ?_
      refine (((List.filter_sublist _).map OhlcvRecord.date).nodup) ?_
      rw [List.map_map]
      exact hwf
    have hpw := List.pairwise_map.mp hnd
    exact (hsorted.and hpw).imp (fun hab => lt_of_le_of_ne hab.1 hab.2)
  · intro rec hrec
    have hmem : rec ∈ (rows.map readCsvRow).filter
        (fun r => date_start ≤ r.date && r.date ≤ date_end) :=
      (List.mem_insertionSort recDateLE).mp hrec
    obtain ⟨row, hrow, he⟩ := List.mem_map.mp (List.mem_of_mem_filter hmem)
    exact ⟨row, hrow, he.symm⟩

/-- C7 (witness): loading the three-row sample file over the window of the
startup loop keeps the two in-window rows, sorts them into ascending date
order, and every record is the five-field projection of a source row. -/
theorem loaded_dataset_normalized_witness :
    (sampleRows.map CsvRow.date).Nodup ∧
    ((loadDataset sampleRows (datetime 2019 1 6) (datetime 2019 12 15)).length =
      (sampleRows.filter (fun r => datetime 2019 1 6 ≤ r.date &&
        r.date ≤ datetime 2019 12 15)).length ∧
    (loadDataset sampleRows (datetime 2019 1 6)
      (datetime 2019 12 15)).Pairwise (fun a b => a.date < b.date) ∧
    ∀ rec ∈ loadDataset sampleRows (datetime 2019 1 6) (datetime 2019 12 15),
      ∃ row ∈ sampleRows, rec = readCsvRow row) :=
  ⟨by decide,
    loaded_dataset_normalized sampleRows (datetime 2019 1 6)
      (datetime 2019 12 15) (by decide)⟩

end MainPandas
